import Mathlib

/-!
Shallow embedding of the auaguard_ai air-quality service in Lean 4.

Python floats are modelled as rationals (ℚ); Python `int(round(x))`
(round half to even, as the `round` builtin does) is modelled by `rnd`;
absent values (`None`) by `Option`; Python dicts by association lists.
Sources embedded: `aq/services/risk_engine.py`,
`aq/services/openaq_client.py`, and `aq/views_api.py`.
-/

namespace AuaGuard

/-- Python `round(x)` on an exact value: round half to even. -/
def rnd (q : ℚ) : ℤ :=
  if q - ⌊q⌋ < 1/2 then ⌊q⌋
  else if 1/2 < q - ⌊q⌋ then ⌊q⌋ + 1
  else if ⌊q⌋ % 2 = 0 then ⌊q⌋ else ⌊q⌋ + 1

/-- Python `round(x, 1)`: round to one decimal place, half to even. -/
def round1 (q : ℚ) : ℚ := (rnd (q * 10) : ℚ) / 10

/-- `_clamp01` from risk_engine.py: `max(0.0, min(1.0, float(x)))`. -/
def _clamp01 (x : ℚ) : ℚ := max 0 (min 1 x)

/-- `_PM25_AQI` from risk_engine.py: EPA-style breakpoints
`(c_low, c_high, i_low, i_high, label)`. -/
def _PM25_AQI : List (ℚ × ℚ × ℤ × ℤ × String) :=
  [ (0, 12, 0, 50, "Good"),
    (12.1, 35.4, 51, 100, "Moderate"),
    (35.5, 55.4, 101, 150, "Unhealthy for Sensitive Groups"),
    (55.5, 150.4, 151, 200, "Unhealthy"),
    (150.5, 250.4, 201, 300, "Very Unhealthy"),
    (250.5, 500.4, 301, 500, "Hazardous") ]

/-- The interpolation applied inside the loop of `aqi_from_pm25`:
`round((i_high - i_low) / (c_high - c_low) * (pm - c_low) + i_low)`. -/
def aqiSeg (cLow cHigh : ℚ) (iLow iHigh : ℤ) (pm : ℚ) : ℤ :=
  rnd (((iHigh : ℚ) - (iLow : ℚ)) / (cHigh - cLow) * (pm - cLow) + (iLow : ℚ))

/-- The breakpoint scan of `aqi_from_pm25`: the first row with
`c_low <= pm <= c_high` wins; falling through every row returns
`(500, "Hazardous")`. -/
def lookupAQI : List (ℚ × ℚ × ℤ × ℤ × String) → ℚ → ℤ × String
  | [], _ => (500, "Hazardous")
  | (cLow, cHigh, iLow, iHigh, label) :: rest, pm =>
      if cLow ≤ pm ∧ pm ≤ cHigh then (aqiSeg cLow cHigh iLow iHigh pm, label)
      else lookupAQI rest pm

/-- `aqi_from_pm25` from risk_engine.py; `none` models `pm is None`. -/
def aqi_from_pm25 : Option ℚ → ℤ × String
  | none => (0, "—")
  | some pm => lookupAQI _PM25_AQI pm

/-- `pm_norm` from risk_engine.py: `clamp01((pm/15)/4)`, 0 when absent. -/
def pm_norm : Option ℚ → ℚ
  | none => 0
  | some pm => _clamp01 (pm / 15 / 4)

/-- `stagnation_score` from risk_engine.py: 0.4 when either input is
absent, otherwise the blended wind/pressure formula. -/
def stagnation_score : Option ℚ → Option ℚ → ℚ
  | some wind, some pres =>
      _clamp01 (0.65 * _clamp01 ((2.5 - wind) / 2.5)
        + 0.35 * _clamp01 ((pres - 1012) / 18))
  | _, _ => 0.4

/-- `trend_score` from risk_engine.py: slope proxy over the series
(`not pm_series or len(pm_series) < 2` collapses to `length < 2`). -/
def trend_score (pmSeries : List ℚ) : ℚ × String :=
  if pmSeries.length < 2 then (0.5, "stable")
  else
    let first := pmSeries.headD 0
    let lst := pmSeries.getLastD 0
    let delta := lst - first
    let denom := max 10 (|first| + 10)
    let raw := delta / denom
    let score := _clamp01 ((raw + 0.7) / 1.4)
    let label := if delta > 3 then "rising"
      else if delta < -3 then "falling" else "stable"
    (score, label)

/-- `seasonality` from risk_engine.py: winter prior for months 11–3. -/
def seasonality (month : ℕ) : ℚ :=
  if month = 11 ∨ month = 12 ∨ month = 1 ∨ month = 2 ∨ month = 3
  then 0.75 else 0.25

/-- `confidence_score` from risk_engine.py. -/
def confidence_score (dataAgeMinutes coverageRatio forecastStability : ℚ) : ℚ :=
  _clamp01 (0.5 * _clamp01 (1 - dataAgeMinutes / 180)
    + 0.35 * _clamp01 coverageRatio + 0.15 * _clamp01 forecastStability)

/-- `risk_index` from risk_engine.py, with the weights the code sets:
`w1, w2, w3, w4 = 0.55, 0.20, 0.15, 0.10`, then
`int(round(_clamp01(r) * 100))`. -/
def risk_index (pm25 : Option ℚ) (stag trend seas : ℚ) : ℤ :=
  rnd (_clamp01 (0.55 * pm_norm pm25 + 0.20 * _clamp01 stag
    + 0.15 * _clamp01 trend + 0.10 * _clamp01 seas) * 100)

/-- The risk-index formula written from the spec sentence of claim C1:
`round(100 * clamp01(0.45*pmNorm(pm) + 0.25*stag + 0.20*trend +
0.10*seas))`, kept separate so it can be compared with the code's
`risk_index`. -/
def riskIndexSpec (pm25 : Option ℚ) (stag trend seas : ℚ) : ℤ :=
  rnd (100 * _clamp01 (0.45 * pm_norm pm25 + 0.25 * _clamp01 stag
    + 0.20 * _clamp01 trend + 0.10 * _clamp01 seas))

/-- The spec formula of claim C1 amended to the weights the code uses:
`round(100 * clamp01(0.55*pmNorm(pm) + 0.20*stag + 0.15*trend +
0.10*seas))`. -/
def riskIndexAmended (pm25 : Option ℚ) (stag trend seas : ℚ) : ℤ :=
  rnd (100 * _clamp01 (0.55 * pm_norm pm25 + 0.20 * _clamp01 stag
    + 0.15 * _clamp01 trend + 0.10 * _clamp01 seas))

/-- `RiskOutput` from risk_engine.py. -/
structure RiskOutput where
  aqi : ℤ
  category : String
  risk_score : ℤ
  confidence : ℚ
  trend_label : String
  deriving Repr, DecidableEq

/-- `compute_all` from risk_engine.py.  The call
`seasonality(datetime.now().month)` reads the wall clock; the observed
month is passed in as the explicit argument `month`. -/
def compute_all (pm25 : Option ℚ) (wind pressure : Option ℚ)
    (pmSeries : List ℚ) (dataAgeMinutes coverageRatio forecastStability : ℚ)
    (month : ℕ) : RiskOutput :=
  let ac := aqi_from_pm25 pm25
  let ts := trend_score pmSeries
  let stag := stagnation_score wind pressure
  let seas := seasonality month
  { aqi := ac.1
    category := ac.2
    risk_score := risk_index pm25 stag ts.1 seas
    confidence := confidence_score dataAgeMinutes coverageRatio forecastStability
    trend_label := ts.2 }

/-! Embedding of `aq/services/openaq_client.py`. -/

/-- One PM-sensor entry of the `/v3/locations/{id}/sensors` response, with
the fields `_pick_best_pm25_sensor` reads.  `pnameLower` holds
`(param.get("name") or "").lower()`, i.e. the already lowercased
parameter name; `latestValue`/`latestDtUtc` model `latest.value` and
`(latest.get("datetime") or {}).get("utc") or ""`. -/
structure Sensor where
  pid : Option ℕ
  pnameLower : String
  latestValue : Option ℚ
  latestDtUtc : String
  deriving Repr, DecidableEq

/-- `PM25_PARAMETER_ID = 2` from openaq_client.py. -/
def PM25_PARAMETER_ID : ℕ := 2

/-- `PM25_PARAMETER_NAMES = {"pm25", "pm2.5", "pm2_5"}`. -/
def PM25_PARAMETER_NAMES : List String := ["pm25", "pm2.5", "pm2_5"]

/-- The candidate filter of `_pick_best_pm25_sensor`:
`pid == PM25_PARAMETER_ID or pname in PM25_PARAMETER_NAMES`. -/
def isPM25Candidate (s : Sensor) : Bool :=
  s.pid == some PM25_PARAMETER_ID || PM25_PARAMETER_NAMES.contains s.pnameLower

/-- The sort key of `_pick_best_pm25_sensor`:
`(1 if latest.value is not None else 0, latest.datetime.utc or "")`. -/
def sensorKey (s : Sensor) : ℕ × String :=
  (if s.latestValue.isSome then 1 else 0, s.latestDtUtc)

/-- Python comparison of the `(int, str)` sort keys: lexicographic,
strings compared by code point. -/
def pairGT (a b : ℕ × String) : Bool :=
  decide (b.1 < a.1) || (decide (a.1 = b.1) && decide (b.2 < a.2))

/-- Scan replacing `candidates.sort(key=score, reverse=True)` followed by
`candidates[0]`: since Python sort is stable, the first element of the
reverse-sorted list is the leftmost candidate with the maximal key. -/
def bestOf : Sensor → List Sensor → Sensor
  | best, [] => best
  | best, c :: rest => bestOf (if pairGT (sensorKey c) (sensorKey best) then c else best) rest

/-- `_pick_best_pm25_sensor` from openaq_client.py. -/
def _pick_best_pm25_sensor (sensors : List Sensor) : Option Sensor :=
  match sensors.filter isPM25Candidate with
  | [] => none
  | c :: rest => some (bestOf c rest)

/-- Outcome of one HTTP attempt inside `OpenAQClient._get_json`: a
transport error (requests raised), or a response with a status code and
a flag saying whether `r.json()` would succeed. -/
inductive Attempt where
  | transport
  | response (status : ℕ) (validJson : Bool)
  deriving Repr, DecidableEq

/-- The transient statuses `_get_json` tests explicitly:
`r.status_code in (429, 500, 502, 503, 504)`. -/
def isTransientStatus (s : ℕ) : Bool :=
  s == 429 || s == 500 || s == 502 || s == 503 || s == 504

/-- Whether one loop iteration of `_get_json` returns: the transient
check must miss, `raise_for_status()` (any status >= 400) must not raise,
and `r.json()` must parse.  Every other outcome lands in
`except Exception` (or the explicit `continue`) and the loop moves on. -/
def attemptSucceeds : Attempt → Bool
  | .transport => false
  | .response status validJson =>
      !isTransientStatus status && status < 400 && validJson

/-- The retry loop `for attempt in range(3)` of `_get_json`, counting the
attempts performed.  `env n` is the outcome the network would give the
(n+1)-th attempt; the result pairs the number of attempts made with
`.ok` (the parsed body) or `.error` (the final `raise OpenAQError`). -/
def getJsonAux (env : ℕ → Attempt) : ℕ → ℕ → ℕ × Except String Unit
  | i, 0 => (i, .error "OpenAQ request failed")
  | i, fuel + 1 =>
      if attemptSucceeds (env i) then (i + 1, .ok ()) else getJsonAux env (i + 1) fuel

/-- `OpenAQClient._get_json` with its attempt budget of 3. -/
def getJsonRun (env : ℕ → Attempt) : ℕ × Except String Unit :=
  getJsonAux env 0 3

/-! Embedding of `aq/views_api.py`. -/

/-- JSON-ish values stored in the snapshot dict built by
`_current_snapshot`. -/
inductive Val where
  | str (s : String)
  | num (q : ℚ)
  | bool (b : Bool)
  | null
  | obj (fields : List (String × Val))

/-- Python `d[k] = v` on a dict modelled as an insertion-ordered
association list (keys unique, as in a dict): overwrite in place when
the key exists, append otherwise. -/
def setKey : List (String × Val) → String → Val → List (String × Val)
  | [], k, v => [(k, v)]
  | (a, b) :: t, k, v => if a = k then (k, v) :: t else (a, b) :: setKey t k v

/-- The stale-cache fallback in the `except` branch of
`_current_snapshot`: `cached = dict(cached); cached["stale"] = True;
cached["source"] = "OpenAQ (cached)"; cached["error"] = str(e)`. -/
def staleFallback (cached : List (String × Val)) (err : String) : List (String × Val) :=
  setKey (setKey (setKey cached "stale" (.bool true)) "source" (.str "OpenAQ (cached)"))
    "error" (.str err)

/-- One entry of the OpenWeather hourly forecast, with the fields
`aq_outlook` reads (`wind_speed`, `pressure`, `temp`). -/
structure WeatherHour where
  wind : Option ℚ
  pres : Option ℚ
  temp : Option ℚ
  deriving Repr, DecidableEq

/-- The persistence-plus-stagnation pm update at the top of the
`aq_outlook` loop body. -/
def stepPM (pm : ℚ) (h : WeatherHour) : ℚ :=
  match h.wind, h.pres with
  | some w, some p =>
      if w < 1.5 ∧ p > 1020 then pm * 1.03
      else if w > 5.5 then pm * 0.90
      else pm * 0.99
  | _, _ => pm * 0.995

/-- One row of the `results` list built by `aq_outlook` (the timestamp
label `t`, which is read from the wall clock, is outside the model). -/
structure OutlookPoint where
  pm25 : ℚ
  aqi : ℤ
  category : String
  risk : ℤ
  confidence : ℚ
  deriving Repr, DecidableEq

/-- The body of the `for i, h in enumerate(hourly)` loop of `aq_outlook`:
update `pm`, call `compute_all`, append the point. -/
def outlookGo (pmNow : ℚ) (month : ℕ) : ℚ → ℕ → List WeatherHour → List OutlookPoint
  | _, _, [] => []
  | pm, i, h :: rest =>
      let pm2 := stepPM pm h
      let out := compute_all (some pm2) h.wind h.pres [pmNow, pm2]
        (30 + 5 * (i : ℚ)) 0.7 (if h.wind.isSome then 0.75 else 0.55) month
      { pm25 := round1 pm2
        aqi := out.aqi
        category := out.category
        risk := out.risk_score
        confidence := out.confidence } :: outlookGo pmNow month pm2 (i + 1) rest

/-- `hours = max(1, min(hours, 72))` from `aq_outlook`. -/
def clampHours (hoursReq : ℤ) : ℤ := max 1 (min hoursReq 72)

/-- The forecast simulation of `aq_outlook`: clamp the requested hours,
take the weather series (`w["hourly"][:hours]` when OpenWeather is
configured, otherwise `hours` blank rows), then run the loop.  `month`
is the calendar month `compute_all` reads from the wall clock. -/
def aq_outlook (hoursReq : ℤ) (pmNow : ℚ) (weatherAll : Option (List WeatherHour))
    (month : ℕ) : List OutlookPoint :=
  let hours := clampHours hoursReq
  let hourly := match weatherAll with
    | some w => w.take hours.toNat
    | none => List.replicate hours.toNat ⟨none, none, none⟩
  outlookGo pmNow month pmNow 0 hourly

/-- Membership in one of the six breakpoint ranges of `_PM25_AQI`, or
above the top breakpoint: the inputs on which the spec's monotonicity
sentence survives (negative inputs and the inter-breakpoint gaps fall
through the table). -/
def inBreakpointDomain (pm : ℚ) : Prop :=
  (0 ≤ pm ∧ pm ≤ 12) ∨ (12.1 ≤ pm ∧ pm ≤ 35.4) ∨ (35.5 ≤ pm ∧ pm ≤ 55.4) ∨
  (55.5 ≤ pm ∧ pm ≤ 150.4) ∨ (150.5 ≤ pm ∧ pm ≤ 250.4) ∨
  (250.5 ≤ pm ∧ pm ≤ 500.4) ∨ 500.4 < pm

/-! Helper lemmas. -/

theorem clamp01_nonneg (x : ℚ) : 0 ≤ _clamp01 x := le_max_left 0 _

theorem clamp01_le_one (x : ℚ) : _clamp01 x ≤ 1 :=
  max_le (by norm_num) (min_le_left 1 x)

theorem rnd_intCast (n : ℤ) : rnd (n : ℚ) = n := by
  norm_num [rnd]

theorem floor_le_rnd (q : ℚ) : ⌊q⌋ ≤ rnd q := by
  unfold rnd; split_ifs <;> omega

theorem rnd_le_floor_add_one (q : ℚ) : rnd q ≤ ⌊q⌋ + 1 := by
  unfold rnd; split_ifs <;> omega

theorem rnd_mono {q1 q2 : ℚ} (h : q1 ≤ q2) : rnd q1 ≤ rnd q2 := by
  have hf : ⌊q1⌋ ≤ ⌊q2⌋ := Int.floor_mono h
  rcases eq_or_lt_of_le hf with heq | hlt
  · have hr : q1 - (⌊q1⌋ : ℚ) ≤ q2 - (⌊q1⌋ : ℚ) := by linarith
    unfold rnd
    rw [← heq]
    split_ifs <;> first | omega | (exfalso; linarith)
  · calc rnd q1 ≤ ⌊q1⌋ + 1 := rnd_le_floor_add_one q1
      _ ≤ ⌊q2⌋ := by omega
      _ ≤ rnd q2 := floor_le_rnd q2

/-! Claim theorems. -/

/-- C9: the stagnation sub-score is the neutral 0.4 whenever either the
wind input or the pressure input is absent, and the blended formula is
applied exactly when both are present. -/
theorem stagnation_neutral_when_any_absent :
    (∀ p : Option ℚ, stagnation_score none p = 0.4) ∧
    (∀ w : ℚ, stagnation_score (some w) none = 0.4) ∧
    (∀ w p : ℚ, stagnation_score (some w) (some p) =
      _clamp01 (0.65 * _clamp01 ((2.5 - w) / 2.5)
        + 0.35 * _clamp01 ((p - 1012) / 18))) := by
  refine ⟨fun p => ?_, fun w => rfl, fun w p => rfl⟩
  cases p <;> rfl

/-- C1 counterexample: at pm = 60 (and zero sub-scores) the code's
`risk_index` returns 55 while the spec's weighted formula
(0.45/0.25/0.20/0.10) returns 45, so the claimed weights are not the
ones the code uses. -/
theorem risk_index_weights_counterexample :
    risk_index (some 60) 0 0 0 = 55 ∧ riskIndexSpec (some 60) 0 0 0 = 45 ∧
    risk_index (some 60) 0 0 0 ≠ riskIndexSpec (some 60) 0 0 0 := by
  refine ⟨?_, ?_, ?_⟩ <;>
    norm_num [risk_index, riskIndexSpec, pm_norm, _clamp01, rnd]

/-- C1 amended: the risk index equals
`round(100 * clamp01(0.55*pmNorm(pm) + 0.20*stag + 0.15*trend +
0.10*seas))` — the weighted combination uses the weights
0.55, 0.20, 0.15, 0.10. -/
theorem risk_index_weights :
    ∀ (pm : Option ℚ) (stag trend seas : ℚ),
      risk_index pm stag trend seas = riskIndexAmended pm stag trend seas := by
  intro pm stag trend seas
  unfold risk_index riskIndexAmended
  rw [mul_comm]

/-- C8: the risk index is always in [0, 100]; the all-zero input yields 0
and any input with pm at or above the 60 µg/m³ saturation and all
sub-scores 1 yields exactly 100. -/
theorem risk_index_range :
    (∀ (pm : Option ℚ) (stag trend seas : ℚ),
      0 ≤ risk_index pm stag trend seas ∧ risk_index pm stag trend seas ≤ 100) ∧
    risk_index (some 0) 0 0 0 = 0 ∧
    (∀ pm : ℚ, 60 ≤ pm → risk_index (some pm) 1 1 1 = 100) := by
  refine ⟨fun pm stag trend seas => ⟨?_, ?_⟩, ?_, fun pm hpm => ?_⟩
  · unfold risk_index
    have h0 : ((0 : ℤ) : ℚ) ≤ _clamp01 (0.55 * pm_norm pm + 0.20 * _clamp01 stag
        + 0.15 * _clamp01 trend + 0.10 * _clamp01 seas) * 100 := by
      push_cast
      exact mul_nonneg (clamp01_nonneg _) (by norm_num)
    have h1 := rnd_mono h0
    rwa [rnd_intCast] at h1
  · unfold risk_index
    have h0 : _clamp01 (0.55 * pm_norm pm + 0.20 * _clamp01 stag
        + 0.15 * _clamp01 trend + 0.10 * _clamp01 seas) * 100 ≤ ((100 : ℤ) : ℚ) := by
      push_cast
      have := clamp01_le_one (0.55 * pm_norm pm + 0.20 * _clamp01 stag
        + 0.15 * _clamp01 trend + 0.10 * _clamp01 seas)
      linarith
    have h1 := rnd_mono h0
    rwa [rnd_intCast] at h1
  · norm_num [risk_index, pm_norm, _clamp01, rnd]
  · have hnorm : pm_norm (some pm) = 1 := by
      simp only [pm_norm, _clamp01]
      rw [div_div]
      rw [min_eq_left ((le_div_iff₀ (by norm_num)).2 (by linarith))]
      norm_num
    simp only [risk_index, hnorm]
    norm_num [_clamp01, rnd]

/-- C8 witness at concrete inputs. -/
theorem risk_index_range_witness :
    (0 ≤ risk_index (some 7) (1/2) (1/3) (1/4) ∧
      risk_index (some 7) (1/2) (1/3) (1/4) ≤ 100) ∧
    risk_index (some 0) 0 0 0 = 0 ∧ risk_index (some 60) 1 1 1 = 100 :=
  ⟨risk_index_range.1 (some 7) (1/2) (1/3) (1/4), risk_index_range.2.1,
    risk_index_range.2.2 60 (by norm_num)⟩

/-- C3: the retry loop of `_get_json` does not distinguish transient from
non-transient failures — a permanent HTTP 404 (a 4xx other than 429) and
a permanently malformed body both consume all 3 attempts before the call
fails, instead of failing immediately as specified and as the code's own
comment (retry for transient issues) describes. -/
theorem get_json_retries_non_transient :
    (getJsonRun (fun _ => .response 404 true)).1 = 3 ∧
    (getJsonRun (fun _ => .response 404 true)).2 =
      .error "OpenAQ request failed" ∧
    (getJsonRun (fun _ => .response 200 false)).1 = 3 ∧
    (getJsonRun (fun _ => .response 200 true)).1 = 1 ∧
    (getJsonRun (fun _ => .response 200 true)).2 = .ok () :=
  ⟨rfl, rfl, rfl, rfl, rfl⟩

theorem lookup_setKey_self (d : List (String × Val)) (k : String) (v : Val) :
    List.lookup k (setKey d k v) = some v := by
  induction d with
  | nil => simp [setKey, List.lookup]
  | cons hd tl ih =>
      obtain ⟨a, b⟩ := hd
      by_cases hk : a = k
      · simp [setKey, hk, List.lookup]
      · have hkb : (k == a) = false := by simp [Ne.symm hk]
        simp [setKey, hk, List.lookup, hkb, ih]

theorem lookup_setKey_ne (d : List (String × Val)) (k k2 : String) (v : Val)
    (h : k2 ≠ k) : List.lookup k2 (setKey d k v) = List.lookup k2 d := by
  have h0 : (k2 == k) = false := by simp [h]
  induction d with
  | nil => simp [setKey, List.lookup, h0]
  | cons hd tl ih =>
      obtain ⟨a, b⟩ := hd
      by_cases hk : a = k
      · have h1 : (k2 == k) = false := by simp [h]
        have h2 : (k2 == a) = false := by simp [hk, h]
        simp [setKey, hk, List.lookup, h1, h2]
      · by_cases hk2 : k2 = a
        · simp [setKey, hk, List.lookup, hk2]
        · have h2 : (k2 == a) = false := by simp [hk2]
          simp [setKey, hk, List.lookup, h2, ih]

/-- C5: when the fresh fetch fails and a cached snapshot exists, the
returned snapshot keeps every cached field unchanged except the
`stale`, `source` and `error` annotations, which are set to `True`,
`"OpenAQ (cached)"` and the error string. -/
theorem stale_fallback_frame (cached : List (String × Val)) (err : String) :
    (∀ k, k ≠ "stale" → k ≠ "source" → k ≠ "error" →
      List.lookup k (staleFallback cached err) = List.lookup k cached) ∧
    List.lookup "stale" (staleFallback cached err) = some (.bool true) ∧
    List.lookup "source" (staleFallback cached err) = some (.str "OpenAQ (cached)") ∧
    List.lookup "error" (staleFallback cached err) = some (.str err) := by
  unfold staleFallback
  refine ⟨fun k h1 h2 h3 => ?_, ?_, ?_, ?_⟩
  · rw [lookup_setKey_ne _ _ _ _ h3, lookup_setKey_ne _ _ _ _ h2,
      lookup_setKey_ne _ _ _ _ h1]
  · rw [lookup_setKey_ne _ _ _ _ (by decide), lookup_setKey_ne _ _ _ _ (by decide),
      lookup_setKey_self]
  · rw [lookup_setKey_ne _ _ _ _ (by decide), lookup_setKey_self]
  · rw [lookup_setKey_self]

/-- C5 witness on a concrete cached snapshot. -/
theorem stale_fallback_frame_witness :
    List.lookup "pm25"
        (staleFallback [("pm25", .num 42), ("stale", .bool false)] "boom") =
      List.lookup "pm25" [("pm25", .num 42), ("stale", .bool false)] ∧
    List.lookup "stale"
        (staleFallback [("pm25", .num 42), ("stale", .bool false)] "boom") =
      some (.bool true) ∧
    List.lookup "source"
        (staleFallback [("pm25", .num 42), ("stale", .bool false)] "boom") =
      some (.str "OpenAQ (cached)") ∧
    List.lookup "error"
        (staleFallback [("pm25", .num 42), ("stale", .bool false)] "boom") =
      some (.str "boom") :=
  ⟨(stale_fallback_frame _ "boom").1 "pm25" (by decide) (by decide) (by decide),
    (stale_fallback_frame _ "boom").2.1, (stale_fallback_frame _ "boom").2.2.1,
    (stale_fallback_frame _ "boom").2.2.2⟩

/-- C7: when the PM2.5 candidates are exactly two sensors with equal
latest timestamps and exactly one of them has a present latest value,
`_pick_best_pm25_sensor` picks the one with the present value,
whichever order they appear in. -/
theorem pick_best_prefers_present_value (sensors : List Sensor) (a b : Sensor)
    (hfil : sensors.filter isPM25Candidate = [a, b] ∨
      sensors.filter isPM25Candidate = [b, a])
    (hval : a.latestValue.isSome = true) (hnoval : b.latestValue = none)
    (hdt : a.latestDtUtc = b.latestDtUtc) :
    _pick_best_pm25_sensor sensors = some a := by
  have hka : sensorKey a = (1, a.latestDtUtc) := by simp [sensorKey, hval]
  have hkb : sensorKey b = (0, a.latestDtUtc) := by simp [sensorKey, hnoval, ← hdt]
  unfold _pick_best_pm25_sensor
  rcases hfil with h | h <;> rw [h] <;> simp [bestOf, pairGT, hka, hkb]

/-- C7 witness: a non-PM2.5 sensor plus the two tied PM2.5 candidates,
with the absent-value candidate listed first. -/
theorem pick_best_prefers_present_value_witness :
    _pick_best_pm25_sensor
        [⟨some 7, "no2", some 3, "2024-05-01T10:00:00Z"⟩,
          ⟨none, "pm2.5", none, "2024-05-01T10:00:00Z"⟩,
          ⟨some 2, "pm25", some 17, "2024-05-01T10:00:00Z"⟩] =
      some ⟨some 2, "pm25", some 17, "2024-05-01T10:00:00Z"⟩ :=
  pick_best_prefers_present_value _
    ⟨some 2, "pm25", some 17, "2024-05-01T10:00:00Z"⟩
    ⟨none, "pm2.5", none, "2024-05-01T10:00:00Z"⟩
    (Or.inr (by decide)) (by decide) (by decide) (by decide)

/-- C10: every non-absent concentration outside all six breakpoint
ranges — negative, or strictly inside an inter-breakpoint gap — falls
through the table and yields `(500, "Hazardous")`. -/
theorem aqi_out_of_range_hazardous (pm : ℚ)
    (h : pm < 0 ∨ (12 < pm ∧ pm < 12.1) ∨ (35.4 < pm ∧ pm < 35.5) ∨
      (55.4 < pm ∧ pm < 55.5) ∨ (150.4 < pm ∧ pm < 150.5) ∨
      (250.4 < pm ∧ pm < 250.5)) :
    aqi_from_pm25 (some pm) = (500, "Hazardous") := by
  have h1 : ¬((0 : ℚ) ≤ pm ∧ pm ≤ 12) := by
    rintro ⟨ha, hb⟩
    rcases h with h | ⟨hc, hd⟩ | ⟨hc, hd⟩ | ⟨hc, hd⟩ | ⟨hc, hd⟩ | ⟨hc, hd⟩ <;> linarith
  have h2 : ¬((12.1 : ℚ) ≤ pm ∧ pm ≤ 35.4) := by
    rintro ⟨ha, hb⟩
    rcases h with h | ⟨hc, hd⟩ | ⟨hc, hd⟩ | ⟨hc, hd⟩ | ⟨hc, hd⟩ | ⟨hc, hd⟩ <;> linarith
  have h3 : ¬((35.5 : ℚ) ≤ pm ∧ pm ≤ 55.4) := by
    rintro ⟨ha, hb⟩
    rcases h with h | ⟨hc, hd⟩ | ⟨hc, hd⟩ | ⟨hc, hd⟩ | ⟨hc, hd⟩ | ⟨hc, hd⟩ <;> linarith
  have h4 : ¬((55.5 : ℚ) ≤ pm ∧ pm ≤ 150.4) := by
    rintro ⟨ha, hb⟩
    rcases h with h | ⟨hc, hd⟩ | ⟨hc, hd⟩ | ⟨hc, hd⟩ | ⟨hc, hd⟩ | ⟨hc, hd⟩ <;> linarith
  have h5 : ¬((150.5 : ℚ) ≤ pm ∧ pm ≤ 250.4) := by
    rintro ⟨ha, hb⟩
    rcases h with h | ⟨hc, hd⟩ | ⟨hc, hd⟩ | ⟨hc, hd⟩ | ⟨hc, hd⟩ | ⟨hc, hd⟩ <;> linarith
  have h6 : ¬((250.5 : ℚ) ≤ pm ∧ pm ≤ 500.4) := by
    rintro ⟨ha, hb⟩
    rcases h with h | ⟨hc, hd⟩ | ⟨hc, hd⟩ | ⟨hc, hd⟩ | ⟨hc, hd⟩ | ⟨hc, hd⟩ <;> linarith
  simp [aqi_from_pm25, _PM25_AQI, lookupAQI, h1, h2, h3, h4, h5, h6]

/-- C10 witness: a gap value and a negative value. -/
theorem aqi_out_of_range_hazardous_witness :
    aqi_from_pm25 (some 12.05) = (500, "Hazardous") ∧
    aqi_from_pm25 (some (-3)) = (500, "Hazardous") :=
  ⟨aqi_out_of_range_hazardous 12.05 (by norm_num),
    aqi_out_of_range_hazardous (-3) (by norm_num)⟩

theorem outlookGo_length (pmNow : ℚ) (month : ℕ) :
    ∀ (w : List WeatherHour) (pm : ℚ) (i : ℕ),
      (outlookGo pmNow month pm i w).length = w.length := by
  intro w
  induction w with
  | nil => intro pm i; rfl
  | cons h t ih => intro pm i; simp [outlookGo, ih]

/-- C4: the requested hours are clamped to [1, 72] and, whenever the
weather series covers the clamped horizon (it always does when
OpenWeather is not configured), the outlook holds exactly that many
points. -/
theorem aq_outlook_count (hoursReq : ℤ) (pmNow : ℚ)
    (weatherAll : Option (List WeatherHour)) (month : ℕ)
    (hw : ∀ w, weatherAll = some w → (clampHours hoursReq).toNat ≤ w.length) :
    1 ≤ clampHours hoursReq ∧ clampHours hoursReq ≤ 72 ∧
    (aq_outlook hoursReq pmNow weatherAll month).length =
      (clampHours hoursReq).toNat := by
  refine ⟨le_max_left 1 _, max_le (by norm_num) (min_le_right _ _), ?_⟩
  unfold aq_outlook
  cases weatherAll with
  | none => simp [outlookGo_length]
  | some w =>
      have hlen := hw w rfl
      simp [outlookGo_length, min_eq_left hlen]

/-- C4 witness: 100 requested hours clamp to 72 and give 72 points. -/
theorem aq_outlook_count_witness :
    1 ≤ clampHours 100 ∧ clampHours 100 ≤ 72 ∧
    (aq_outlook 100 25 none 5).length = (clampHours 100).toNat :=
  aq_outlook_count 100 25 none 5 (fun _w h => nomatch h)

theorem outlookGo_month_free :
    ∀ (w : List WeatherHour) (pmNow pm : ℚ) (i m1 m2 : ℕ),
      ((outlookGo pmNow m1 pm i w).map (fun p => p.pm25) =
        (outlookGo pmNow m2 pm i w).map (fun p => p.pm25)) ∧
      ((outlookGo pmNow m1 pm i w).map (fun p => p.aqi) =
        (outlookGo pmNow m2 pm i w).map (fun p => p.aqi)) := by
  intro w
  induction w with
  | nil => intro pmNow pm i m1 m2; exact ⟨rfl, rfl⟩
  | cons h t ih =>
      intro pmNow pm i m1 m2
      refine ⟨?_, ?_⟩ <;>
        · simp only [outlookGo, List.map_cons]
          refine congrArg (List.cons _) ?_
          first
            | exact (ih pmNow (stepPM pm h) (i + 1) m1 m2).1
            | exact (ih pmNow (stepPM pm h) (i + 1) m1 m2).2

/-- C6 counterexample: with the same snapshot (pm 50) and the same
(absent) weather series, a run in March and a run in April return
different risk sequences, because `compute_all` reads the calendar
month for the seasonality prior. -/
theorem aq_outlook_month_counterexample :
    (aq_outlook 1 50 none 3).map (fun p => p.risk) = [69] ∧
    (aq_outlook 1 50 none 4).map (fun p => p.risk) = [64] ∧
    (aq_outlook 1 50 none 3).map (fun p => p.risk) ≠
      (aq_outlook 1 50 none 4).map (fun p => p.risk) := by
  have h1 : (aq_outlook 1 50 none 3).map (fun p => p.risk) = [69] := by
    norm_num [aq_outlook, clampHours, outlookGo, stepPM, compute_all, risk_index,
      pm_norm, stagnation_score, trend_score, seasonality, _clamp01, rnd, round1,
      confidence_score, List.replicate]
  have h2 : (aq_outlook 1 50 none 4).map (fun p => p.risk) = [64] := by
    norm_num [aq_outlook, clampHours, outlookGo, stepPM, compute_all, risk_index,
      pm_norm, stagnation_score, trend_score, seasonality, _clamp01, rnd, round1,
      confidence_score, List.replicate]
  exact ⟨h1, h2, by rw [h1, h2]; decide⟩

/-- C6 amended: for a fixed snapshot and weather series the pm25 and aqi
sequences are identical across runs regardless of the clock, and the
full outlook (risk included) is identical whenever the two runs observe
the same calendar month. -/
theorem aq_outlook_deterministic (hoursReq : ℤ) (pmNow : ℚ)
    (weatherAll : Option (List WeatherHour)) (m1 m2 : ℕ) :
    ((aq_outlook hoursReq pmNow weatherAll m1).map (fun p => p.pm25) =
      (aq_outlook hoursReq pmNow weatherAll m2).map (fun p => p.pm25)) ∧
    ((aq_outlook hoursReq pmNow weatherAll m1).map (fun p => p.aqi) =
      (aq_outlook hoursReq pmNow weatherAll m2).map (fun p => p.aqi)) ∧
    (m1 = m2 →
      aq_outlook hoursReq pmNow weatherAll m1 = aq_outlook hoursReq pmNow weatherAll m2) := by
  refine ⟨?_, ?_, fun h => by rw [h]⟩ <;> unfold aq_outlook
  · exact (outlookGo_month_free _ pmNow pmNow 0 m1 m2).1
  · exact (outlookGo_month_free _ pmNow pmNow 0 m1 m2).2

/-- C6 witness at a concrete snapshot, weather series and month. -/
theorem aq_outlook_deterministic_witness :
    ((aq_outlook 2 50 (some [⟨some 3, some 1015, some 10⟩, ⟨none, none, none⟩]) 3).map
        (fun p => p.pm25) =
      (aq_outlook 2 50 (some [⟨some 3, some 1015, some 10⟩, ⟨none, none, none⟩]) 3).map
        (fun p => p.pm25)) ∧
    ((aq_outlook 2 50 (some [⟨some 3, some 1015, some 10⟩, ⟨none, none, none⟩]) 3).map
        (fun p => p.aqi) =
      (aq_outlook 2 50 (some [⟨some 3, some 1015, some 10⟩, ⟨none, none, none⟩]) 3).map
        (fun p => p.aqi)) ∧
    aq_outlook 2 50 (some [⟨some 3, some 1015, some 10⟩, ⟨none, none, none⟩]) 3 =
      aq_outlook 2 50 (some [⟨some 3, some 1015, some 10⟩, ⟨none, none, none⟩]) 3 :=
  ⟨(aq_outlook_deterministic 2 50 (some [⟨some 3, some 1015, some 10⟩, ⟨none, none, none⟩]) 3 3).1,
    (aq_outlook_deterministic 2 50 (some [⟨some 3, some 1015, some 10⟩, ⟨none, none, none⟩]) 3 3).2.1,
    (aq_outlook_deterministic 2 50 (some [⟨some 3, some 1015, some 10⟩, ⟨none, none, none⟩]) 3 3).2.2 rfl⟩

theorem aqi_eq_seg1 (pm : ℚ) (ha : 0 ≤ pm) (hb : pm ≤ 12) :
    aqi_from_pm25 (some pm) = (aqiSeg 0 12 0 50 pm, "Good") := by
  simp [aqi_from_pm25, _PM25_AQI, lookupAQI, ha, hb]

theorem aqi_eq_seg2 (pm : ℚ) (ha : 12.1 ≤ pm) (hb : pm ≤ 35.4) :
    aqi_from_pm25 (some pm) = (aqiSeg 12.1 35.4 51 100 pm, "Moderate") := by
  have h1 : ¬((0 : ℚ) ≤ pm ∧ pm ≤ 12) := by rintro ⟨x, y⟩; linarith
  simp [aqi_from_pm25, _PM25_AQI, lookupAQI, h1, ha, hb]

theorem aqi_eq_seg3 (pm : ℚ) (ha : 35.5 ≤ pm) (hb : pm ≤ 55.4) :
    aqi_from_pm25 (some pm) =
      (aqiSeg 35.5 55.4 101 150 pm, "Unhealthy for Sensitive Groups") := by
  have h1 : ¬((0 : ℚ) ≤ pm ∧ pm ≤ 12) := by rintro ⟨x, y⟩; linarith
  have h2 : ¬((12.1 : ℚ) ≤ pm ∧ pm ≤ 35.4) := by rintro ⟨x, y⟩; linarith
  simp [aqi_from_pm25, _PM25_AQI, lookupAQI, h1, h2, ha, hb]

theorem aqi_eq_seg4 (pm : ℚ) (ha : 55.5 ≤ pm) (hb : pm ≤ 150.4) :
    aqi_from_pm25 (some pm) = (aqiSeg 55.5 150.4 151 200 pm, "Unhealthy") := by
  have h1 : ¬((0 : ℚ) ≤ pm ∧ pm ≤ 12) := by rintro ⟨x, y⟩; linarith
  have h2 : ¬((12.1 : ℚ) ≤ pm ∧ pm ≤ 35.4) := by rintro ⟨x, y⟩; linarith
  have h3 : ¬((35.5 : ℚ) ≤ pm ∧ pm ≤ 55.4) := by rintro ⟨x, y⟩; linarith
  simp [aqi_from_pm25, _PM25_AQI, lookupAQI, h1, h2, h3, ha, hb]

theorem aqi_eq_seg5 (pm : ℚ) (ha : 150.5 ≤ pm) (hb : pm ≤ 250.4) :
    aqi_from_pm25 (some pm) = (aqiSeg 150.5 250.4 201 300 pm, "Very Unhealthy") := by
  have h1 : ¬((0 : ℚ) ≤ pm ∧ pm ≤ 12) := by rintro ⟨x, y⟩; linarith
  have h2 : ¬((12.1 : ℚ) ≤ pm ∧ pm ≤ 35.4) := by rintro ⟨x, y⟩; linarith
  have h3 : ¬((35.5 : ℚ) ≤ pm ∧ pm ≤ 55.4) := by rintro ⟨x, y⟩; linarith
  have h4 : ¬((55.5 : ℚ) ≤ pm ∧ pm ≤ 150.4) := by rintro ⟨x, y⟩; linarith
  simp [aqi_from_pm25, _PM25_AQI, lookupAQI, h1, h2, h3, h4, ha, hb]

theorem aqi_eq_seg6 (pm : ℚ) (ha : 250.5 ≤ pm) (hb : pm ≤ 500.4) :
    aqi_from_pm25 (some pm) = (aqiSeg 250.5 500.4 301 500 pm, "Hazardous") := by
  have h1 : ¬((0 : ℚ) ≤ pm ∧ pm ≤ 12) := by rintro ⟨x, y⟩; linarith
  have h2 : ¬((12.1 : ℚ) ≤ pm ∧ pm ≤ 35.4) := by rintro ⟨x, y⟩; linarith
  have h3 : ¬((35.5 : ℚ) ≤ pm ∧ pm ≤ 55.4) := by rintro ⟨x, y⟩; linarith
  have h4 : ¬((55.5 : ℚ) ≤ pm ∧ pm ≤ 150.4) := by rintro ⟨x, y⟩; linarith
  have h5 : ¬((150.5 : ℚ) ≤ pm ∧ pm ≤ 250.4) := by rintro ⟨x, y⟩; linarith
  simp [aqi_from_pm25, _PM25_AQI, lookupAQI, h1, h2, h3, h4, h5, ha, hb]

theorem aqi_eq_above (pm : ℚ) (ha : 500.4 < pm) :
    aqi_from_pm25 (some pm) = (500, "Hazardous") := by
  have h1 : ¬((0 : ℚ) ≤ pm ∧ pm ≤ 12) := by rintro ⟨x, y⟩; linarith
  have h2 : ¬((12.1 : ℚ) ≤ pm ∧ pm ≤ 35.4) := by rintro ⟨x, y⟩; linarith
  have h3 : ¬((35.5 : ℚ) ≤ pm ∧ pm ≤ 55.4) := by rintro ⟨x, y⟩; linarith
  have h4 : ¬((55.5 : ℚ) ≤ pm ∧ pm ≤ 150.4) := by rintro ⟨x, y⟩; linarith
  have h5 : ¬((150.5 : ℚ) ≤ pm ∧ pm ≤ 250.4) := by rintro ⟨x, y⟩; linarith
  have h6 : ¬((250.5 : ℚ) ≤ pm ∧ pm ≤ 500.4) := by rintro ⟨x, y⟩; linarith
  simp [aqi_from_pm25, _PM25_AQI, lookupAQI, h1, h2, h3, h4, h5, h6]

theorem aqiSeg_mono {cLow cHigh : ℚ} {iLow iHigh : ℤ} (hc : cLow < cHigh)
    (hi : iLow ≤ iHigh) {pm1 pm2 : ℚ} (h : pm1 ≤ pm2) :
    aqiSeg cLow cHigh iLow iHigh pm1 ≤ aqiSeg cLow cHigh iLow iHigh pm2 := by
  unfold aqiSeg
  apply rnd_mono
  have hslope : (0 : ℚ) ≤ ((iHigh : ℚ) - (iLow : ℚ)) / (cHigh - cLow) :=
    div_nonneg (by exact_mod_cast sub_nonneg.2 hi) (by linarith)
  have h2 := mul_le_mul_of_nonneg_left (sub_le_sub_right h cLow) hslope
  linarith

theorem aqiSeg_lower {cLow cHigh : ℚ} {iLow iHigh : ℤ} (hc : cLow < cHigh)
    (hi : iLow ≤ iHigh) {pm : ℚ} (h : cLow ≤ pm) :
    iLow ≤ aqiSeg cLow cHigh iLow iHigh pm := by
  unfold aqiSeg
  have hslope : (0 : ℚ) ≤ ((iHigh : ℚ) - (iLow : ℚ)) / (cHigh - cLow) :=
    div_nonneg (by exact_mod_cast sub_nonneg.2 hi) (by linarith)
  have h2 : ((iLow : ℤ) : ℚ) ≤
      ((iHigh : ℚ) - (iLow : ℚ)) / (cHigh - cLow) * (pm - cLow) + (iLow : ℚ) := by
    have := mul_nonneg hslope (sub_nonneg.2 h)
    linarith
  calc iLow = rnd ((iLow : ℤ) : ℚ) := (rnd_intCast iLow).symm
    _ ≤ _ := rnd_mono h2

theorem aqiSeg_upper {cLow cHigh : ℚ} {iLow iHigh : ℤ} (hc : cLow < cHigh)
    (hi : iLow ≤ iHigh) {pm : ℚ} (h : pm ≤ cHigh) :
    aqiSeg cLow cHigh iLow iHigh pm ≤ iHigh := by
  unfold aqiSeg
  have hne : cHigh - cLow ≠ 0 := sub_ne_zero.2 (ne_of_gt hc)
  have hslope : (0 : ℚ) ≤ ((iHigh : ℚ) - (iLow : ℚ)) / (cHigh - cLow) :=
    div_nonneg (by exact_mod_cast sub_nonneg.2 hi) (by linarith)
  have h2 : ((iHigh : ℚ) - (iLow : ℚ)) / (cHigh - cLow) * (pm - cLow) + (iLow : ℚ) ≤
      ((iHigh : ℤ) : ℚ) := by
    have h1 : ((iHigh : ℚ) - (iLow : ℚ)) / (cHigh - cLow) * (pm - cLow) ≤
        ((iHigh : ℚ) - (iLow : ℚ)) / (cHigh - cLow) * (cHigh - cLow) :=
      mul_le_mul_of_nonneg_left (by linarith) hslope
    rw [div_mul_cancel₀ _ hne] at h1
    linarith
  calc aqiSeg cLow cHigh iLow iHigh pm ≤ rnd ((iHigh : ℤ) : ℚ) := rnd_mono h2
    _ = iHigh := rnd_intCast iHigh

/-- C2 counterexample: 12.05 ≤ 12.1, yet the index at 12.05 (a value in
the 12.0–12.1 inter-breakpoint gap, which falls through the table to
500) exceeds the index at 12.1, so the conversion is not monotonic over
all non-absent concentrations. -/
theorem aqi_mono_counterexample :
    (12.05 : ℚ) ≤ 12.1 ∧ (aqi_from_pm25 (some 12.05)).1 = 500 ∧
    (aqi_from_pm25 (some 12.1)).1 = 51 ∧
    ¬((aqi_from_pm25 (some 12.05)).1 ≤ (aqi_from_pm25 (some 12.1)).1) := by
  have h1 : (aqi_from_pm25 (some 12.05)).1 = 500 := by
    norm_num [aqi_from_pm25, _PM25_AQI, lookupAQI, aqiSeg, rnd]
  have h2 : (aqi_from_pm25 (some 12.1)).1 = 51 := by
    norm_num [aqi_from_pm25, _PM25_AQI, lookupAQI, aqiSeg, rnd]
  exact ⟨by norm_num, h1, h2, by rw [h1, h2]; decide⟩

/-- C2 amended: the PM2.5-to-AQI conversion is monotonic non-decreasing
on the breakpoint domain — concentrations lying in one of the six
breakpoint ranges or above the top breakpoint (negative values and the
inter-breakpoint gaps, which the table maps to 500, are excluded). -/
theorem aqi_mono_on_domain (pm1 pm2 : ℚ) (h1 : inBreakpointDomain pm1)
    (h2 : inBreakpointDomain pm2) (hle : pm1 ≤ pm2) :
    (aqi_from_pm25 (some pm1)).1 ≤ (aqi_from_pm25 (some pm2)).1 := by
  unfold inBreakpointDomain at h1 h2
  rcases h1 with ⟨a1, b1⟩ | ⟨a1, b1⟩ | ⟨a1, b1⟩ | ⟨a1, b1⟩ | ⟨a1, b1⟩ | ⟨a1, b1⟩ | a1 <;>
    rcases h2 with ⟨a2, b2⟩ | ⟨a2, b2⟩ | ⟨a2, b2⟩ | ⟨a2, b2⟩ | ⟨a2, b2⟩ | ⟨a2, b2⟩ | a2 <;>
    first
      | (exfalso; linarith)
      | (rw [aqi_eq_seg1 pm1 a1 b1, aqi_eq_seg1 pm2 a2 b2]
         exact aqiSeg_mono (by norm_num) (by norm_num) hle)
      | (rw [aqi_eq_seg2 pm1 a1 b1, aqi_eq_seg2 pm2 a2 b2]
         exact aqiSeg_mono (by norm_num) (by norm_num) hle)
      | (rw [aqi_eq_seg3 pm1 a1 b1, aqi_eq_seg3 pm2 a2 b2]
         exact aqiSeg_mono (by norm_num) (by norm_num) hle)
      | (rw [aqi_eq_seg4 pm1 a1 b1, aqi_eq_seg4 pm2 a2 b2]
         exact aqiSeg_mono (by norm_num) (by norm_num) hle)
      | (rw [aqi_eq_seg5 pm1 a1 b1, aqi_eq_seg5 pm2 a2 b2]
         exact aqiSeg_mono (by norm_num) (by norm_num) hle)
      | (rw [aqi_eq_seg6 pm1 a1 b1, aqi_eq_seg6 pm2 a2 b2]
         exact aqiSeg_mono (by norm_num) (by norm_num) hle)
      | (rw [aqi_eq_above pm1 a1, aqi_eq_above pm2 a2])
      | (rw [aqi_eq_seg1 pm1 a1 b1, aqi_eq_seg2 pm2 a2 b2]
         exact le_trans (aqiSeg_upper (by norm_num) (by norm_num) b1)
           (le_trans (by norm_num) (aqiSeg_lower (by norm_num) (by norm_num) a2)))
      | (rw [aqi_eq_seg1 pm1 a1 b1, aqi_eq_seg3 pm2 a2 b2]
         exact le_trans (aqiSeg_upper (by norm_num) (by norm_num) b1)
           (le_trans (by norm_num) (aqiSeg_lower (by norm_num) (by norm_num) a2)))
      | (rw [aqi_eq_seg1 pm1 a1 b1, aqi_eq_seg4 pm2 a2 b2]
         exact le_trans (aqiSeg_upper (by norm_num) (by norm_num) b1)
           (le_trans (by norm_num) (aqiSeg_lower (by norm_num) (by norm_num) a2)))
      | (rw [aqi_eq_seg1 pm1 a1 b1, aqi_eq_seg5 pm2 a2 b2]
         exact le_trans (aqiSeg_upper (by norm_num) (by norm_num) b1)
           (le_trans (by norm_num) (aqiSeg_lower (by norm_num) (by norm_num) a2)))
      | (rw [aqi_eq_seg1 pm1 a1 b1, aqi_eq_seg6 pm2 a2 b2]
         exact le_trans (aqiSeg_upper (by norm_num) (by norm_num) b1)
           (le_trans (by norm_num) (aqiSeg_lower (by norm_num) (by norm_num) a2)))
      | (rw [aqi_eq_seg2 pm1 a1 b1, aqi_eq_seg3 pm2 a2 b2]
         exact le_trans (aqiSeg_upper (by norm_num) (by norm_num) b1)
           (le_trans (by norm_num) (aqiSeg_lower (by norm_num) (by norm_num) a2)))
      | (rw [aqi_eq_seg2 pm1 a1 b1, aqi_eq_seg4 pm2 a2 b2]
         exact le_trans (aqiSeg_upper (by norm_num) (by norm_num) b1)
           (le_trans (by norm_num) (aqiSeg_lower (by norm_num) (by norm_num) a2)))
      | (rw [aqi_eq_seg2 pm1 a1 b1, aqi_eq_seg5 pm2 a2 b2]
         exact le_trans (aqiSeg_upper (by norm_num) (by norm_num) b1)
           (le_trans (by norm_num) (aqiSeg_lower (by norm_num) (by norm_num) a2)))
      | (rw [aqi_eq_seg2 pm1 a1 b1, aqi_eq_seg6 pm2 a2 b2]
         exact le_trans (aqiSeg_upper (by norm_num) (by norm_num) b1)
           (le_trans (by norm_num) (aqiSeg_lower (by norm_num) (by norm_num) a2)))
      | (rw [aqi_eq_seg3 pm1 a1 b1, aqi_eq_seg4 pm2 a2 b2]
         exact le_trans (aqiSeg_upper (by norm_num) (by norm_num) b1)
           (le_trans (by norm_num) (aqiSeg_lower (by norm_num) (by norm_num) a2)))
      | (rw [aqi_eq_seg3 pm1 a1 b1, aqi_eq_seg5 pm2 a2 b2]
         exact le_trans (aqiSeg_upper (by norm_num) (by norm_num) b1)
           (le_trans (by norm_num) (aqiSeg_lower (by norm_num) (by norm_num) a2)))
      | (rw [aqi_eq_seg3 pm1 a1 b1, aqi_eq_seg6 pm2 a2 b2]
         exact le_trans (aqiSeg_upper (by norm_num) (by norm_num) b1)
           (le_trans (by norm_num) (aqiSeg_lower (by norm_num) (by norm_num) a2)))
      | (rw [aqi_eq_seg4 pm1 a1 b1, aqi_eq_seg5 pm2 a2 b2]
         exact le_trans (aqiSeg_upper (by norm_num) (by norm_num) b1)
           (le_trans (by norm_num) (aqiSeg_lower (by norm_num) (by norm_num) a2)))
      | (rw [aqi_eq_seg4 pm1 a1 b1, aqi_eq_seg6 pm2 a2 b2]
         exact le_trans (aqiSeg_upper (by norm_num) (by norm_num) b1)
           (le_trans (by norm_num) (aqiSeg_lower (by norm_num) (by norm_num) a2)))
      | (rw [aqi_eq_seg5 pm1 a1 b1, aqi_eq_seg6 pm2 a2 b2]
         exact le_trans (aqiSeg_upper (by norm_num) (by norm_num) b1)
           (le_trans (by norm_num) (aqiSeg_lower (by norm_num) (by norm_num) a2)))
      | (rw [aqi_eq_seg1 pm1 a1 b1, aqi_eq_above pm2 a2]
         exact le_trans (aqiSeg_upper (by norm_num) (by norm_num) b1) (by norm_num))
      | (rw [aqi_eq_seg2 pm1 a1 b1, aqi_eq_above pm2 a2]
         exact le_trans (aqiSeg_upper (by norm_num) (by norm_num) b1) (by norm_num))
      | (rw [aqi_eq_seg3 pm1 a1 b1, aqi_eq_above pm2 a2]
         exact le_trans (aqiSeg_upper (by norm_num) (by norm_num) b1) (by norm_num))
      | (rw [aqi_eq_seg4 pm1 a1 b1, aqi_eq_above pm2 a2]
         exact le_trans (aqiSeg_upper (by norm_num) (by norm_num) b1) (by norm_num))
      | (rw [aqi_eq_seg5 pm1 a1 b1, aqi_eq_above pm2 a2]
         exact le_trans (aqiSeg_upper (by norm_num) (by norm_num) b1) (by norm_num))
      | (rw [aqi_eq_seg6 pm1 a1 b1, aqi_eq_above pm2 a2]
         exact le_trans (aqiSeg_upper (by norm_num) (by norm_num) b1) (by norm_num))

/-- C2 witness: 5 and 100 both lie in breakpoint ranges. -/
theorem aqi_mono_on_domain_witness :
    inBreakpointDomain 5 ∧ inBreakpointDomain 100 ∧ (5 : ℚ) ≤ 100 ∧
    (aqi_from_pm25 (some 5)).1 ≤ (aqi_from_pm25 (some 100)).1 :=
  ⟨by norm_num [inBreakpointDomain], by norm_num [inBreakpointDomain], by norm_num,
    aqi_mono_on_domain 5 100 (by norm_num [inBreakpointDomain])
      (by norm_num [inBreakpointDomain]) (by norm_num)⟩

end AuaGuard
